import Mathlib

/-!
Shallow embedding of `anchore_engine/services/catalog/image_content/get_image_content.py`:
the image-content getter hierarchy (`ImageContentGetter`, `ImageManifestContentGetter`,
`ImageDockerfileContentGetter`, `MultipleContentTypesGetter`).

External collaborators (the relational DB, the object-store manager, the response
formatter `helpers.make_image_content_response`, the supported-type registry
`image_content_types`, `taskstate`, `base64`) are not part of the repository's
source tree; they are modelled from the spec as fields of an `Env` record or as
plain constants, each marked `Modelled from the spec:` in its doc comment.

Python dictionaries are modelled as association lists (`Doc`), Python truthiness of
dictionary values by `Payload.truthy`, and raised exceptions by `Except GetterError`.
Object-store side effects are made explicit: every getter returns its result together
with the updated store and the list of store operations it performed.
-/

set_option autoImplicit false

namespace GetImageContent

/-- A stored payload value for one content type (a Python dict value).  Package
payloads and manifests are opaque (`raw`); dockerfile payloads are strings; `empty`
is an empty ("falsy") container such as `{}` or `[]`. -/
inductive Payload where
  | str (s : String)
  | empty
  | raw (tag : Nat)
  deriving DecidableEq, Repr

/-- Python truthiness of a dictionary value. -/
def Payload.truthy : Payload → Bool
  | .str s => s ≠ ""
  | .empty => false
  | .raw _ => true

/-- Python truthiness of `d.get(k, None)` for an optional value. -/
def truthyOpt : Option Payload → Bool
  | none => false
  | some p => p.truthy

/-- The content map of a stored content document: the value of the `"document"` key,
a Python dict from content-type string to payload. -/
abbrev Doc := List (String × Payload)

/-- First value stored under key `k` (Python `d[k]` / `d.get(k)` lookup). -/
def findKey : Doc → String → Option Payload
  | [], _ => none
  | e :: t, k => if e.1 = k then some e.2 else findKey t k

/-- Python `k in d`, with `k` the (possibly `None`) `content_type` attribute. -/
def containsKey (d : Doc) (k : Option String) : Bool :=
  match k with
  | none => false
  | some key => (findKey d key).isSome

/-- Python `d[k] = v`: replace the value in place if the key exists, else append. -/
def insertKey (d : Doc) (k : String) (v : Payload) : Doc :=
  if (findKey d k).isSome then
    d.map (fun e => if e.1 = k then (k, v) else e)
  else
    d ++ [(k, v)]

/-- One `image_detail` entry of an image record; `dockerfile` optionally carries the
legacy base64-encoded Dockerfile body. -/
structure ImageDetail where
  dockerfile : Option String
  deriving DecidableEq, Repr

/-- Python truthiness of `image_detail.get("dockerfile", None)`. -/
def ImageDetail.dockerfileTruthy (d : ImageDetail) : Bool :=
  match d.dockerfile with
  | none => false
  | some s => s ≠ ""

/-- The image record (`image_report` dict) returned by `db_catalog_image.get`. -/
structure ImageReport where
  analysis_status : String
  dockerfile_mode : Option String
  image_detail : List ImageDetail
  imageDigest : String
  deriving DecidableEq, Repr

/-- The structured error detail built by `ImageContentGetter.get_error_detail`. -/
structure ErrorDetail where
  account_id : String
  content_type : Option String
  image_digest : String
  deriving DecidableEq, Repr

/-- Exceptions the getters can raise.  `resourceNotFound` and `badRequest` mirror the
API exception classes and carry the structured detail dict; `anchoreError` is the
exception built by `make_anchore_exception` (primary message, HTTP code, and the raw
underlying error text kept as cause, not as message); `keyError` and `attributeError`
are the corresponding Python runtime errors. -/
inductive GetterError where
  | resourceNotFound (msg : String) (detail : ErrorDetail)
  | badRequest (msg : String) (detail : ErrorDetail)
  | anchoreError (msg : String) (httpcode : Nat) (cause : String)
  | keyError (k : Option String)
  | attributeError (attr : String)
  deriving DecidableEq, Repr

/-- The structured request-context detail attached to an error, when it has one. -/
def errorDetailOf : GetterError → Option ErrorDetail
  | .resourceNotFound _ detail => some detail
  | .badRequest _ detail => some detail
  | .anchoreError _ _ _ => none
  | .keyError _ => none
  | .attributeError _ => none

/-- The primary message of an error. -/
def errorMessageOf : GetterError → String
  | .resourceNotFound msg _ => msg
  | .badRequest msg _ => msg
  | .anchoreError msg _ _ => msg
  | .keyError _ => "KeyError"
  | .attributeError attr => "AttributeError: " ++ attr

/-- A stored object-store blob, as seen through `json.loads(...)`: either a
well-formed content-document envelope, a well-formed manifest envelope (whose
`"document"` value is an opaque manifest body rather than a content map), or bytes
that fail JSON deserialization. -/
inductive Blob where
  | contentDoc (d : Doc)
  | manifestDoc (m : Payload)
  | corrupt
  deriving DecidableEq, Repr

/-- One operation performed against the object store. -/
inductive StoreOp where
  | get (account category key : String)
  | put (account category key : String)
  deriving DecidableEq, Repr

/-- The object store: a map from (account, category, key) to blob. -/
structure ObjStore where
  entries : List ((String × String × String) × Blob)
  deriving DecidableEq, Repr

/-- First blob stored under a (account, category, key) triple. -/
def storeFind : List ((String × String × String) × Blob) →
    (String × String × String) → Option Blob
  | [], _ => none
  | e :: t, k => if e.1 = k then some e.2 else storeFind t k

/-- Object-store read. -/
def ObjStore.lookup (s : ObjStore) (k : String × String × String) : Option Blob :=
  storeFind s.entries k

/-- Object-store write (overwrites any previous blob under the key). -/
def ObjStore.write (s : ObjStore) (k : String × String × String) (b : Blob) : ObjStore :=
  ⟨(k, b) :: s.entries.filter (fun e => ¬ e.1 = k)⟩

/-- Modelled from the spec: the external collaborators of the getter core, which are
not part of the repository source.
- `db_catalog_image_get`: record lookup `get(digest, accountId) -> ImageRecord | absent`.
- `make_image_content_response`: the Response Formatter, a pure function from content
  type and raw payload to the canonical record shape.
- `image_content_types`: the Supported-Type Registry, the set of valid content-type
  identifiers.
- `base64_decodebytes`: base64 decoding of a legacy Dockerfile body; fails on invalid
  input.
- `object_store_put_fails`: whether the object store's `put` fails for a given
  (account, category, key) — the spec's `put(...) -> fails-or-succeeds`. -/
structure Env where
  db_catalog_image_get : String → String → Option ImageReport
  make_image_content_response : Option String → Payload → Payload
  image_content_types : List String
  base64_decodebytes : String → Except String String
  object_store_put_fails : String → String → String → Bool

/-- Modelled from the spec: `taskstate.complete_state("analyze")`, the terminal
success status of the analysis state machine. -/
def analyze_complete_state : String := "analyzed-complete"

/-- Modelled from the spec: `taskstate.working_state("analyze")`, the in-progress
status of the analysis state machine. -/
def analyze_working_state : String := "analyzing"

/-- Modelled from the spec: `make_anchore_exception` (from
`anchore_engine.common.helpers`, outside the source tree) wraps an underlying error
into a server-classified exception.  At its call sites in the source it receives only
the raw error, a fixed `input_message` and an `input_httpcode`, so the exception it
builds has the fixed message as its primary message, the given HTTP code, and can
carry only the raw error as cause — no request context. -/
def make_anchore_exception (err : String) (input_message : String)
    (input_httpcode : Nat) : GetterError :=
  .anchoreError input_message input_httpcode err

/-- Python `str(self.content_type)` (which renders `None` as `"None"`). -/
def contentTypeStr : Option String → String
  | none => "None"
  | some s => s

/-- The `ImageContentGetter` instance attributes set by `__init__`.  `content_type`
is `none` exactly when the Python attribute is `None` (the `MultipleContentTypesGetter`
constructor passes `content_type=None`). -/
structure ImageContentGetter where
  account_id : String
  content_type : Option String
  image_digest : String
  deriving DecidableEq, Repr

/-- `ImageContentGetter.get_error_detail`. -/
def ImageContentGetter.get_error_detail (g : ImageContentGetter) : ErrorDetail :=
  { account_id := g.account_id
    content_type := g.content_type
    image_digest := g.image_digest }

/-- `ImageContentGetter.verify_analysis_status`: raises `ResourceNotFound` when the
(truthy) image report's `analysis_status` is outside the allowed set.  The source's
`if image_report and ...` truthiness guard is the `Option` match. -/
def ImageContentGetter.verify_analysis_status (g : ImageContentGetter)
    (image_report : Option ImageReport) (allow_analyzing_state : Bool) :
    Except GetterError Unit :=
  let allowed_states :=
    if allow_analyzing_state then [analyze_complete_state, analyze_working_state]
    else [analyze_complete_state]
  match image_report with
  | none => .ok ()
  | some r =>
      if r.analysis_status ∈ allowed_states then .ok ()
      else
        .error (.resourceNotFound
          ("image is not analyzed - analysis_status: " ++ r.analysis_status)
          g.get_error_detail)

/-- `ImageContentGetter.get_image_content_data`: read the content document from the
`image_content_data` category and return the `"document"` value; any retrieval or
deserialization failure is wrapped by `make_anchore_exception` with a fixed message
and HTTP code 500.  Also returns the store operations performed. -/
def ImageContentGetter.get_image_content_data (g : ImageContentGetter)
    (store : ObjStore) (image_digest : String) :
    Except GetterError Doc × List StoreOp :=
  let ops := [StoreOp.get g.account_id "image_content_data" image_digest]
  match store.lookup (g.account_id, "image_content_data", image_digest) with
  | some (.contentDoc d) => (.ok d, ops)
  | some (.manifestDoc _) =>
      (.error (make_anchore_exception "document shape mismatch"
        "cannot fetch content data from archive" 500), ops)
  | some .corrupt =>
      (.error (make_anchore_exception "JSON deserialization failed"
        "cannot fetch content data from archive" 500), ops)
  | none =>
      (.error (make_anchore_exception "object not found in store"
        "cannot fetch content data from archive" 500), ops)

/-- `ImageManifestContentGetter.get_image_content_data`: read from the
`manifest_data` category instead, and wrap the fetched payload as
`{"manifest": payload}`. -/
def ImageManifestContentGetter.get_image_content_data (g : ImageContentGetter)
    (store : ObjStore) (image_digest : String) :
    Except GetterError Doc × List StoreOp :=
  let ops := [StoreOp.get g.account_id "manifest_data" image_digest]
  let msg := "cannot fetch content data " ++ contentTypeStr g.content_type
    ++ " from archive"
  match store.lookup (g.account_id, "manifest_data", image_digest) with
  | some (.manifestDoc m) => (.ok [("manifest", m)], ops)
  | some (.contentDoc _) =>
      (.error (make_anchore_exception "document shape mismatch" msg 500), ops)
  | some .corrupt =>
      (.error (make_anchore_exception "JSON deserialization failed" msg 500), ops)
  | none =>
      (.error (make_anchore_exception "object not found in store" msg 500), ops)

/-- The dynamically-typed value flowing from the fetch/normalize steps into
`hydrate_additional_data`: either the raw document dict, or the output of
`make_image_content_response`. -/
inductive ContentData where
  | doc (d : Doc)
  | formatted (p : Payload)
  deriving DecidableEq, Repr

/-- Python `image_content_data[self.content_type]` (raises `KeyError` if absent). -/
def indexKey (d : Doc) (k : Option String) : Except GetterError Payload :=
  match k with
  | none => .error (.keyError none)
  | some key =>
      match findKey d key with
      | some v => .ok v
      | none => .error (.keyError (some key))

/-- The remainder of `ImageContentGetter.get` after the content fetch: the
single-type presence check (`__verify_content_type__`), the optional normalization
(`__normalize_to_user_format_on_load__`), and the `hydrate_additional_data` hook. -/
def getAfterFetch (g : ImageContentGetter) (env : Env) (store : ObjStore)
    (verify_content_type : Bool) (normalize_on_load : Bool)
    (hydrate : Env → ObjStore → ContentData → ImageReport →
      Except GetterError ContentData × ObjStore × List StoreOp)
    (image_report : ImageReport) (image_content_data : Doc) (ops : List StoreOp) :
    Except GetterError ContentData × ObjStore × List StoreOp :=
  if verify_content_type ∧ ¬ containsKey image_content_data g.content_type then
    (.error (.badRequest
      ("image content of type (" ++ contentTypeStr g.content_type
        ++ ") was not an available type at analysis time for this image")
      g.get_error_detail), store, ops)
  else
    let normalized : Except GetterError ContentData :=
      if normalize_on_load then
        (indexKey image_content_data g.content_type).map
          (fun p => .formatted (env.make_image_content_response g.content_type p))
      else .ok (.doc image_content_data)
    match normalized with
    | .error e => (.error e, store, ops)
    | .ok cd =>
        match hydrate env store cd image_report with
        | (r, store2, ops2) => (r, store2, ops ++ ops2)

/-- `ImageContentGetter.get`, parameterized over the subclass's override points: the
class flags `__verify_content_type__` and `__normalize_to_user_format_on_load__`, the
`get_image_content_data` method and the `hydrate_additional_data` hook.  Returns the
result together with the updated object store and the store operations performed. -/
def getWith (g : ImageContentGetter) (env : Env) (store : ObjStore)
    (verify_content_type : Bool) (normalize_on_load : Bool)
    (fetchData : ObjStore → String → Except GetterError Doc × List StoreOp)
    (hydrate : Env → ObjStore → ContentData → ImageReport →
      Except GetterError ContentData × ObjStore × List StoreOp)
    (allow_analyzing_state : Bool) :
    Except GetterError ContentData × ObjStore × List StoreOp :=
  match env.db_catalog_image_get g.image_digest g.account_id with
  | none =>
      (.error (.resourceNotFound "Image not found" g.get_error_detail), store, [])
  | some image_report =>
      match g.verify_analysis_status (some image_report) allow_analyzing_state with
      | .error e => (.error e, store, [])
      | .ok _ =>
          match fetchData store g.image_digest with
          | (.error e, ops) => (.error e, store, ops)
          | (.ok image_content_data, ops) =>
              getAfterFetch g env store verify_content_type normalize_on_load
                hydrate image_report image_content_data ops

/-- The base `hydrate_additional_data`: identity passthrough. -/
def ImageContentGetter.hydrate_additional_data (_env : Env) (store : ObjStore)
    (cd : ContentData) (_image_report : ImageReport) :
    Except GetterError ContentData × ObjStore × List StoreOp :=
  (.ok cd, store, [])

/-- `ImageContentGetter.get` with the base class's flags and hooks. -/
def ImageContentGetter.get (g : ImageContentGetter) (env : Env) (store : ObjStore)
    (allow_analyzing_state : Bool) :
    Except GetterError ContentData × ObjStore × List StoreOp :=
  getWith g env store true true (g.get_image_content_data)
    ImageContentGetter.hydrate_additional_data allow_analyzing_state

/-- `ImageManifestContentGetter.get`: the base flow with the manifest fetch hook. -/
def ImageManifestContentGetter.get (g : ImageContentGetter) (env : Env)
    (store : ObjStore) (allow_analyzing_state : Bool) :
    Except GetterError ContentData × ObjStore × List StoreOp :=
  getWith g env store true true (ImageManifestContentGetter.get_image_content_data g)
    ImageContentGetter.hydrate_additional_data allow_analyzing_state

/-- The `for image_detail in image_report.get("image_detail", [])` migration loop of
`ImageDockerfileContentGetter.hydrate_additional_data`, running under its `try`.
Returns the (possibly updated) in-memory document, the store, the operations
performed, and the raised exception's text when one was raised (to be caught and
logged by the `except` clause).  A raised exception aborts the whole loop; entries
with a falsy legacy body are skipped; a successful write-back ends the loop via
`break`.  The in-memory `image_content_data["dockerfile"]` assignment happens before
the `put`, so a failed `put` still leaves the decoded text in the in-memory
document. -/
def dockerfileMigrationLoop (g : ImageContentGetter) (env : Env) (store : ObjStore)
    (d : Doc) (report_digest : String) :
    List ImageDetail → Doc × ObjStore × List StoreOp × Option String
  | [] => (d, store, [], none)
  | detail :: rest =>
      if ¬ detail.dockerfileTruthy then
        dockerfileMigrationLoop g env store d report_digest rest
      else
        match env.base64_decodebytes (detail.dockerfile.getD "") with
        | .error e => (d, store, [], some e)
        | .ok decoded =>
            let d2 := insertKey d "dockerfile" (.str decoded)
            if env.object_store_put_fails g.account_id "image_content_data"
                report_digest then
              (d2, store, [], some "object store put failed")
            else
              (d2,
                store.write (g.account_id, "image_content_data", report_digest)
                  (.contentDoc d2),
                [StoreOp.put g.account_id "image_content_data" report_digest],
                none)

/-- `ImageDockerfileContentGetter.hydrate_additional_data`: if the in-memory document
already has a truthy `"dockerfile"` value, or the record's `dockerfile_mode` is not
`"Actual"`, format and return directly; otherwise run the migration loop (exceptions
caught and only logged) and format whatever the in-memory document then holds for the
requested type.  (A formatting `KeyError` raised by the early return inside the `try`
would be caught and re-raised identically by the final return, so both early returns
are modelled directly as the final formatting of the unchanged document.) -/
def ImageDockerfileContentGetter.hydrate_additional_data (g : ImageContentGetter)
    (env : Env) (store : ObjStore) (cd : ContentData) (image_report : ImageReport) :
    Except GetterError ContentData × ObjStore × List StoreOp :=
  match cd with
  | .formatted p => (.ok (.formatted p), store, [])
  | .doc d =>
      let respond := fun (d3 : Doc) (s : ObjStore) (ops : List StoreOp) =>
        ((indexKey d3 g.content_type).map
          (fun p => ContentData.formatted
            (env.make_image_content_response g.content_type p)), s, ops)
      if truthyOpt (findKey d "dockerfile") then respond d store []
      else if image_report.dockerfile_mode ≠ some "Actual" then respond d store []
      else
        match dockerfileMigrationLoop g env store d image_report.imageDigest
            image_report.image_detail with
        | (d2, store2, ops, _exn) => respond d2 store2 ops

/-- `ImageDockerfileContentGetter.get`: the base flow with
`__normalize_to_user_format_on_load__ = False` and the migration hook. -/
def ImageDockerfileContentGetter.get (g : ImageContentGetter) (env : Env)
    (store : ObjStore) (allow_analyzing_state : Bool) :
    Except GetterError ContentData × ObjStore × List StoreOp :=
  getWith g env store true false (g.get_image_content_data)
    (ImageDockerfileContentGetter.hydrate_additional_data g) allow_analyzing_state

/-- Python `str.lower()` as used on content-type identifiers (character-wise
lowering; content types are ASCII).  Defined directly on the character list so that
it reduces inside the kernel. -/
def lowerString (s : String) : String :=
  String.mk (s.data.map Char.toLower)

/-- The `MultipleContentTypesGetter` instance.  `content_types = none` models the
Python attribute never having been assigned: `__init__` only sets it when the
argument is a truthy list. -/
structure MultipleContentTypesGetter where
  toGetter : ImageContentGetter
  content_types : Option (List String)
  deriving DecidableEq, Repr

/-- `MultipleContentTypesGetter.__init__`: calls the base constructor with
`content_type=None` and lower-cases the requested types — but only assigns the
`content_types` attribute when the argument list is truthy (non-empty). -/
def MultipleContentTypesGetter.make (account_id : String)
    (content_types : List String) (image_digest : String) :
    MultipleContentTypesGetter :=
  { toGetter :=
      { account_id := account_id
        content_type := none
        image_digest := image_digest }
    content_types :=
      if content_types.isEmpty then none
      else some (content_types.map (fun item => lowerString item)) }

/-- `MultipleContentTypesGetter._is_content_type_match`, with the (already assigned)
`content_types` attribute passed explicitly. -/
def MultipleContentTypesGetter.is_content_type_match (env : Env)
    (content_types : List String) (content_type : String) : Bool :=
  if content_type = "" ∨ content_type ∉ env.image_content_types then false
  else if "all" ∈ content_types then true
  else lowerString content_type ∈ content_types

/-- `MultipleContentTypesGetter.hydrate_additional_data`: empty document short-circuits
to `{}` (before `self.content_types` is ever read); reading an unassigned
`content_types` attribute raises `AttributeError`; otherwise keep exactly the
supported-and-requested keys, each formatted. -/
def MultipleContentTypesGetter.hydrate_additional_data
    (m : MultipleContentTypesGetter) (env : Env) (store : ObjStore)
    (cd : ContentData) (_image_report : ImageReport) :
    Except GetterError ContentData × ObjStore × List StoreOp :=
  match cd with
  | .formatted p => (.ok (.formatted p), store, [])
  | .doc d =>
      if d.isEmpty then (.ok (.doc []), store, [])
      else
        match m.content_types with
        | none => (.error (.attributeError "content_types"), store, [])
        | some cts =>
            if cts.isEmpty then (.ok (.doc []), store, [])
            else
              (.ok (.doc
                ((d.filter (fun e =>
                    MultipleContentTypesGetter.is_content_type_match env cts e.1)).map
                  (fun e => (e.1, env.make_image_content_response (some e.1) e.2)))),
                store, [])

/-- `MultipleContentTypesGetter.get`: the base flow with both class flags disabled and
the aggregation hook. -/
def MultipleContentTypesGetter.get (m : MultipleContentTypesGetter) (env : Env)
    (store : ObjStore) (allow_analyzing_state : Bool) :
    Except GetterError ContentData × ObjStore × List StoreOp :=
  getWith m.toGetter env store false false (m.toGetter.get_image_content_data)
    (m.hydrate_additional_data) allow_analyzing_state

/-! Concrete fixtures used by witnesses and counterexamples. -/

/-- A record in the terminal `analyzed-complete` state, `dockerfile_mode = "Actual"`,
with one image detail carrying the base64 body `"QUJD"` (which decodes to `"ABC"`). -/
def rptActual : ImageReport :=
  { analysis_status := analyze_complete_state
    dockerfile_mode := some "Actual"
    image_detail := [{ dockerfile := some "QUJD" }]
    imageDigest := "dgst" }

/-- A concrete environment: one record (`"dgst"`/`"acct"` ↦ `rptActual`), identity
formatter, registry `{os, java}`, base64 decoding that only accepts `"QUJD"`
(= `"ABC"`), and an object store whose writes always succeed. -/
def envA : Env :=
  { db_catalog_image_get := fun digest account =>
      if digest = "dgst" ∧ account = "acct" then some rptActual else none
    make_image_content_response := fun _ p => p
    image_content_types := ["os", "java"]
    base64_decodebytes := fun s =>
      if s = "QUJD" then .ok "ABC" else .error "invalid base64"
    object_store_put_fails := fun _ _ _ => false }

/-- The base getter for account `"acct"`, type `"os"`, digest `"dgst"`. -/
def gOs : ImageContentGetter :=
  { account_id := "acct", content_type := some "os", image_digest := "dgst" }

/-- The dockerfile getter instance (same account/digest, type `"dockerfile"`). -/
def gDockerfile : ImageContentGetter :=
  { account_id := "acct", content_type := some "dockerfile", image_digest := "dgst" }

/-- The manifest getter instance (same account/digest, type `"manifest"`). -/
def gManifest : ImageContentGetter :=
  { account_id := "acct", content_type := some "manifest", image_digest := "dgst" }

/-- A store holding a content document with only an `"os"` entry. -/
def storeOs : ObjStore :=
  ⟨[(("acct", "image_content_data", "dgst"), .contentDoc [("os", .raw 0)])]⟩

/-- A record whose analysis failed (outside every allowed read state). -/
def rptFailed : ImageReport :=
  { analysis_status := "analysis_failed"
    dockerfile_mode := none
    image_detail := []
    imageDigest := "dgst" }

/-- `envA` with the single record in the failed state instead. -/
def envFailed : Env :=
  { envA with
    db_catalog_image_get := fun digest account =>
      if digest = "dgst" ∧ account = "acct" then some rptFailed else none }

/-- A store whose content document has an `"os"` entry with an empty payload. -/
def storeOsEmptyPayload : ObjStore :=
  ⟨[(("acct", "image_content_data", "dgst"), .contentDoc [("os", .empty)])]⟩

/-- A store holding only a manifest document for the digest. -/
def storeManifest : ObjStore :=
  ⟨[(("acct", "manifest_data", "dgst"), .manifestDoc (.raw 7))]⟩

/-- A store whose content document has a truthy `"dockerfile"` entry already. -/
def storeTruthyDockerfile : ObjStore :=
  ⟨[(("acct", "image_content_data", "dgst"),
      .contentDoc [("dockerfile", .str "FROM scratch")])]⟩

/-- `envA` with base64 decoding that always fails. -/
def envBadBase64 : Env :=
  { envA with base64_decodebytes := fun _ => .error "Incorrect padding" }

/-- `envA` with an object store whose writes always fail. -/
def envPutFails : Env :=
  { envA with object_store_put_fails := fun _ _ _ => true }

/-- A store whose content document has a present-but-empty `"dockerfile"` entry. -/
def storeEmptyDockerfile : ObjStore :=
  ⟨[(("acct", "image_content_data", "dgst"),
      .contentDoc [("os", .raw 0), ("dockerfile", .str "")])]⟩

/-! Helper lemmas. -/

theorem findKey_cons (e : String × Payload) (t : Doc) (k : String) :
    findKey (e :: t) k = if e.1 = k then some e.2 else findKey t k := rfl

theorem findKey_insertKey_self (d : Doc) (k : String) (v : Payload) :
    findKey (insertKey d k v) k = some v := by
  unfold insertKey
  by_cases h : (findKey d k).isSome
  · rw [if_pos h]
    induction d with
    | nil => simp [findKey] at h
    | cons e t ih =>
      by_cases he : e.1 = k
      · simp [findKey_cons, he]
      · simp only [List.map_cons, findKey_cons, if_neg he] at h ⊢
        exact ih h
  · rw [if_neg h]
    induction d with
    | nil => simp [findKey]
    | cons e t ih =>
      by_cases he : e.1 = k
      · rw [findKey_cons, if_pos he, Option.isSome_some] at h
        exact absurd rfl h
      · rw [List.cons_append, findKey_cons, if_neg he]
        rw [findKey_cons, if_neg he] at h
        exact ih h

theorem lookup_write_self (s : ObjStore) (k : String × String × String) (b : Blob) :
    (s.write k b).lookup k = some b := by
  simp [ObjStore.write, ObjStore.lookup, storeFind]

theorem getWith_record_missing (g : ImageContentGetter) (env : Env) (store : ObjStore)
    (vct norm : Bool)
    (fetchData : ObjStore → String → Except GetterError Doc × List StoreOp)
    (hydrate : Env → ObjStore → ContentData → ImageReport →
      Except GetterError ContentData × ObjStore × List StoreOp)
    (allow : Bool)
    (hrep : env.db_catalog_image_get g.image_digest g.account_id = none) :
    getWith g env store vct norm fetchData hydrate allow =
      (.error (.resourceNotFound "Image not found" g.get_error_detail), store, []) := by
  unfold getWith
  simp only [hrep]

theorem getWith_verify_error (g : ImageContentGetter) (env : Env) (store : ObjStore)
    (vct norm : Bool)
    (fetchData : ObjStore → String → Except GetterError Doc × List StoreOp)
    (hydrate : Env → ObjStore → ContentData → ImageReport →
      Except GetterError ContentData × ObjStore × List StoreOp)
    (allow : Bool) (r : ImageReport) (e : GetterError)
    (hrep : env.db_catalog_image_get g.image_digest g.account_id = some r)
    (hver : g.verify_analysis_status (some r) allow = .error e) :
    getWith g env store vct norm fetchData hydrate allow = (.error e, store, []) := by
  unfold getWith
  simp only [hrep, hver]

theorem getWith_fetch_error (g : ImageContentGetter) (env : Env) (store : ObjStore)
    (vct norm : Bool)
    (fetchData : ObjStore → String → Except GetterError Doc × List StoreOp)
    (hydrate : Env → ObjStore → ContentData → ImageReport →
      Except GetterError ContentData × ObjStore × List StoreOp)
    (allow : Bool) (r : ImageReport) (e : GetterError) (ops : List StoreOp)
    (hrep : env.db_catalog_image_get g.image_digest g.account_id = some r)
    (hver : g.verify_analysis_status (some r) allow = .ok ())
    (hfetch : fetchData store g.image_digest = (.error e, ops)) :
    getWith g env store vct norm fetchData hydrate allow = (.error e, store, ops) := by
  unfold getWith
  simp only [hrep, hver, hfetch]

theorem getWith_fetch_ok (g : ImageContentGetter) (env : Env) (store : ObjStore)
    (vct norm : Bool)
    (fetchData : ObjStore → String → Except GetterError Doc × List StoreOp)
    (hydrate : Env → ObjStore → ContentData → ImageReport →
      Except GetterError ContentData × ObjStore × List StoreOp)
    (allow : Bool) (r : ImageReport) (d : Doc) (ops : List StoreOp)
    (hrep : env.db_catalog_image_get g.image_digest g.account_id = some r)
    (hver : g.verify_analysis_status (some r) allow = .ok ())
    (hfetch : fetchData store g.image_digest = (.ok d, ops)) :
    getWith g env store vct norm fetchData hydrate allow =
      getAfterFetch g env store vct norm hydrate r d ops := by
  unfold getWith
  simp only [hrep, hver, hfetch]

theorem verify_ok_of_complete (g : ImageContentGetter) (r : ImageReport)
    (allow : Bool) (hst : r.analysis_status = analyze_complete_state) :
    g.verify_analysis_status (some r) allow = .ok () := by
  unfold ImageContentGetter.verify_analysis_status
  cases allow <;> simp [hst]

theorem base_fetch_ok (g : ImageContentGetter) (store : ObjStore) (d : Doc)
    (hblob : store.lookup (g.account_id, "image_content_data", g.image_digest) =
      some (.contentDoc d)) :
    g.get_image_content_data store g.image_digest =
      (.ok d, [StoreOp.get g.account_id "image_content_data" g.image_digest]) := by
  unfold ImageContentGetter.get_image_content_data
  simp only [hblob]











/-- C5: for every digest and account whose record lookup returns absent, `get()` on
every variant fails with `NotFound` ("Image not found") carrying the account id, the
content-type selector and the image digest in the error detail, and performs no
content-document fetch (the list of object-store operations is empty and the store is
untouched). -/
theorem missing_record_fails_notfound_on_every_variant
    (g : ImageContentGetter) (m : MultipleContentTypesGetter) (env : Env)
    (store : ObjStore) (allow : Bool)
    (hg : env.db_catalog_image_get g.image_digest g.account_id = none)
    (hm : env.db_catalog_image_get m.toGetter.image_digest m.toGetter.account_id
      = none) :
    g.get env store allow =
      (.error (.resourceNotFound "Image not found"
        { account_id := g.account_id, content_type := g.content_type,
          image_digest := g.image_digest }), store, []) ∧
    ImageManifestContentGetter.get g env store allow =
      (.error (.resourceNotFound "Image not found"
        { account_id := g.account_id, content_type := g.content_type,
          image_digest := g.image_digest }), store, []) ∧
    ImageDockerfileContentGetter.get g env store allow =
      (.error (.resourceNotFound "Image not found"
        { account_id := g.account_id, content_type := g.content_type,
          image_digest := g.image_digest }), store, []) ∧
    m.get env store allow =
      (.error (.resourceNotFound "Image not found"
        { account_id := m.toGetter.account_id,
          content_type := m.toGetter.content_type,
          image_digest := m.toGetter.image_digest }), store, []) := by
  refine ⟨?_, ?_, ?_, ?_⟩ <;>
    simp [ImageContentGetter.get, ImageManifestContentGetter.get,
      ImageDockerfileContentGetter.get, MultipleContentTypesGetter.get,
      getWith_record_missing, hg, hm, ImageContentGetter.get_error_detail]

/-- Witness for C5 at a concrete absent digest. -/
theorem missing_record_fails_notfound_on_every_variant_witness :
    (({ account_id := "acct", content_type := some "os", image_digest := "nope" } :
        ImageContentGetter).get envA storeOs false) =
      (.error (.resourceNotFound "Image not found"
        { account_id := "acct", content_type := some "os", image_digest := "nope" }),
        storeOs, []) ∧
    (MultipleContentTypesGetter.make "acct" ["os"] "nope").get envA storeOs false =
      (.error (.resourceNotFound "Image not found"
        { account_id := "acct", content_type := none, image_digest := "nope" }),
        storeOs, []) := by
  have h := missing_record_fails_notfound_on_every_variant
    { account_id := "acct", content_type := some "os", image_digest := "nope" }
    (MultipleContentTypesGetter.make "acct" ["os"] "nope") envA storeOs false
    rfl rfl
  exact ⟨h.1, h.2.2.2⟩

/-- C2: with an existing record, the state check passes exactly when
`analysis_status` is the analyzed-complete state, or additionally the analyzing state
when `allow_analyzing_state` is set; any other status makes `get()` (any variant)
fail with the `InvalidState` condition, surfaced as a `ResourceNotFound`-class error
carrying the account, content-type selector and digest as error context. -/
theorem analysis_state_validation
    (g : ImageContentGetter) (env : Env) (store : ObjStore) (vct norm : Bool)
    (fetchData : ObjStore → String → Except GetterError Doc × List StoreOp)
    (hydrate : Env → ObjStore → ContentData → ImageReport →
      Except GetterError ContentData × ObjStore × List StoreOp)
    (allow : Bool) (r : ImageReport)
    (hrep : env.db_catalog_image_get g.image_digest g.account_id = some r) :
    (g.verify_analysis_status (some r) allow = .ok () ↔
      (r.analysis_status = analyze_complete_state ∨
        (allow = true ∧ r.analysis_status = analyze_working_state))) ∧
    (¬ (r.analysis_status = analyze_complete_state ∨
        (allow = true ∧ r.analysis_status = analyze_working_state)) →
      getWith g env store vct norm fetchData hydrate allow =
        (.error (.resourceNotFound
          ("image is not analyzed - analysis_status: " ++ r.analysis_status)
          { account_id := g.account_id, content_type := g.content_type,
            image_digest := g.image_digest }), store, [])) := by
  constructor
  · unfold ImageContentGetter.verify_analysis_status
    cases allow <;>
      by_cases h : r.analysis_status = analyze_complete_state <;>
      by_cases h2 : r.analysis_status = analyze_working_state <;>
      simp [h, h2]
  · intro hne
    have hver : g.verify_analysis_status (some r) allow =
        .error (.resourceNotFound
          ("image is not analyzed - analysis_status: " ++ r.analysis_status)
          { account_id := g.account_id, content_type := g.content_type,
            image_digest := g.image_digest }) := by
      unfold ImageContentGetter.verify_analysis_status
      push_neg at hne
      cases allow with
      | false => simp [hne.1, ImageContentGetter.get_error_detail]
      | true => simp [hne.1, hne.2 rfl, ImageContentGetter.get_error_detail]
    exact getWith_verify_error g env store vct norm fetchData hydrate allow r _
      hrep hver

/-- Witness for C2 at a concrete record in the failed state. -/
theorem analysis_state_validation_witness :
    gOs.get envFailed storeOs false =
      (.error (.resourceNotFound
        "image is not analyzed - analysis_status: analysis_failed"
        { account_id := "acct", content_type := some "os", image_digest := "dgst" }),
        storeOs, []) := by
  exact (analysis_state_validation gOs envFailed storeOs true true
    (gOs.get_image_content_data) ImageContentGetter.hydrate_additional_data false
    rptFailed rfl).2 (by decide)

/-- C4 (counterexample): a concrete object-store retrieval failure is wrapped into
the upstream error with the fixed message and HTTP 500, but the raised error carries
no structured request-context detail at all — in particular not the account id, the
content-type selector or the image digest the claim requires. -/
theorem upstream_failure_detail_counterexample :
    (gOs.get envA ⟨[]⟩ false).1 =
      .error (.anchoreError "cannot fetch content data from archive" 500
        "object not found in store") ∧
    errorDetailOf (.anchoreError "cannot fetch content data from archive" 500
      "object not found in store") = none := ⟨rfl, rfl⟩

/-- C4 (amended): every object-store retrieval or deserialization failure during the
content-document fetch makes `get()` fail with an upstream error classified as
server-side (HTTP 500) whose primary message is the fixed wrap message — not the raw
underlying exception text, which is kept only as the cause — but which carries no
structured request-context detail (no account id, content-type selector or digest).
The first part covers the primary-category fetch shared by the base, Dockerfile and
multi-type variants (any flags and hook); the second covers the Manifest variant. -/
theorem upstream_failure_wrapping
    (g : ImageContentGetter) (env : Env) (store : ObjStore) (vct norm : Bool)
    (hydrate : Env → ObjStore → ContentData → ImageReport →
      Except GetterError ContentData × ObjStore × List StoreOp)
    (allow : Bool) (r : ImageReport)
    (hrep : env.db_catalog_image_get g.image_digest g.account_id = some r)
    (hst : r.analysis_status = analyze_complete_state) :
    ((store.lookup (g.account_id, "image_content_data", g.image_digest) = none ∨
      store.lookup (g.account_id, "image_content_data", g.image_digest) =
        some .corrupt) →
      ∃ cause : String,
        getWith g env store vct norm (g.get_image_content_data) hydrate allow =
          (.error (.anchoreError "cannot fetch content data from archive" 500 cause),
            store,
            [StoreOp.get g.account_id "image_content_data" g.image_digest]) ∧
        cause ≠ "cannot fetch content data from archive" ∧
        errorDetailOf
          (.anchoreError "cannot fetch content data from archive" 500 cause) =
          none) ∧
    ((store.lookup (g.account_id, "manifest_data", g.image_digest) = none ∨
      store.lookup (g.account_id, "manifest_data", g.image_digest) =
        some .corrupt) →
      ∃ cause : String,
        ImageManifestContentGetter.get g env store allow =
          (.error (.anchoreError
            ("cannot fetch content data " ++ contentTypeStr g.content_type
              ++ " from archive") 500 cause),
            store, [StoreOp.get g.account_id "manifest_data" g.image_digest]) ∧
        errorDetailOf (.anchoreError
          ("cannot fetch content data " ++ contentTypeStr g.content_type
            ++ " from archive") 500 cause) = none) := by
  have hver := verify_ok_of_complete g r allow hst
  constructor
  · intro hfail
    rcases hfail with h | h
    · refine ⟨"object not found in store", ?_, by decide, rfl⟩
      refine getWith_fetch_error g env store vct norm _ hydrate allow r _ _ hrep hver ?_
      unfold ImageContentGetter.get_image_content_data
      simp only [h]
      rfl
    · refine ⟨"JSON deserialization failed", ?_, by decide, rfl⟩
      refine getWith_fetch_error g env store vct norm _ hydrate allow r _ _ hrep hver ?_
      unfold ImageContentGetter.get_image_content_data
      simp only [h]
      rfl
  · intro hfail
    rcases hfail with h | h
    · refine ⟨"object not found in store", ?_, rfl⟩
      refine getWith_fetch_error g env store true true _ _ allow r _ _ hrep hver ?_
      unfold ImageManifestContentGetter.get_image_content_data
      simp only [h]
      rfl
    · refine ⟨"JSON deserialization failed", ?_, rfl⟩
      refine getWith_fetch_error g env store true true _ _ allow r _ _ hrep hver ?_
      unfold ImageManifestContentGetter.get_image_content_data
      simp only [h]
      rfl

/-- Witness for the amended C4 at a concrete empty store. -/
theorem upstream_failure_wrapping_witness :
    ∃ cause : String,
      gOs.get envA ⟨[]⟩ false =
        (.error (.anchoreError "cannot fetch content data from archive" 500 cause),
          ⟨[]⟩, [StoreOp.get "acct" "image_content_data" "dgst"]) ∧
      cause ≠ "cannot fetch content data from archive" ∧
      errorDetailOf (.anchoreError "cannot fetch content data from archive" 500
        cause) = none := by
  exact (upstream_failure_wrapping gOs envA ⟨[]⟩ true true
    ImageContentGetter.hydrate_additional_data false rptActual rfl rfl).1 (.inl rfl)

/-- C8: with a manifest document stored under the `manifest_data` category for the
digest, the Manifest variant's `get()` performs exactly one store read — from the
`manifest_data` category keyed by the same digest, never the primary content
category — wraps the payload as `{"manifest": payload}`, and succeeds exactly when
the single requested type is `"manifest"`. -/
theorem manifest_fetch_and_wrapping
    (g : ImageContentGetter) (env : Env) (store : ObjStore) (allow : Bool)
    (r : ImageReport) (m : Payload)
    (hrep : env.db_catalog_image_get g.image_digest g.account_id = some r)
    (hst : r.analysis_status = analyze_complete_state)
    (hblob : store.lookup (g.account_id, "manifest_data", g.image_digest) =
      some (.manifestDoc m)) :
    (ImageManifestContentGetter.get g env store allow).2.2 =
      [StoreOp.get g.account_id "manifest_data" g.image_digest] ∧
    (g.content_type = some "manifest" →
      ImageManifestContentGetter.get g env store allow =
        (.ok (.formatted (env.make_image_content_response (some "manifest") m)),
          store, [StoreOp.get g.account_id "manifest_data" g.image_digest])) ∧
    (g.content_type ≠ some "manifest" →
      ImageManifestContentGetter.get g env store allow =
        (.error (.badRequest
          ("image content of type (" ++ contentTypeStr g.content_type
            ++ ") was not an available type at analysis time for this image")
          { account_id := g.account_id, content_type := g.content_type,
            image_digest := g.image_digest }),
          store, [StoreOp.get g.account_id "manifest_data" g.image_digest])) := by
  have hver := verify_ok_of_complete g r allow hst
  have hfetch : ImageManifestContentGetter.get_image_content_data g store
      g.image_digest =
      (.ok [("manifest", m)],
        [StoreOp.get g.account_id "manifest_data" g.image_digest]) := by
    unfold ImageManifestContentGetter.get_image_content_data
    simp only [hblob]
  have hred := getWith_fetch_ok g env store true true _
    ImageContentGetter.hydrate_additional_data allow r _ _ hrep hver hfetch
  have h2 : g.content_type = some "manifest" →
      ImageManifestContentGetter.get g env store allow =
        (.ok (.formatted (env.make_image_content_response (some "manifest") m)),
          store, [StoreOp.get g.account_id "manifest_data" g.image_digest]) := by
    intro hm
    unfold ImageManifestContentGetter.get
    rw [hred]
    simp [getAfterFetch, containsKey, hm, findKey_cons, findKey, indexKey,
      Except.map, ImageContentGetter.hydrate_additional_data]
  have h3 : g.content_type ≠ some "manifest" →
      ImageManifestContentGetter.get g env store allow =
        (.error (.badRequest
          ("image content of type (" ++ contentTypeStr g.content_type
            ++ ") was not an available type at analysis time for this image")
          { account_id := g.account_id, content_type := g.content_type,
            image_digest := g.image_digest }),
          store, [StoreOp.get g.account_id "manifest_data" g.image_digest]) := by
    intro hm
    have hcontains : containsKey [("manifest", m)] g.content_type = false := by
      cases hctv : g.content_type with
      | none => rfl
      | some ct =>
          by_cases hmc : ct = "manifest"
          · exact absurd (by rw [hctv, hmc]) hm
          · simp [containsKey, findKey_cons, findKey, Ne.symm hmc]
    unfold ImageManifestContentGetter.get
    rw [hred]
    simp [getAfterFetch, hcontains, ImageContentGetter.get_error_detail]
  refine ⟨?_, h2, h3⟩
  by_cases hc : g.content_type = some "manifest"
  · rw [h2 hc]
  · rw [h3 hc]

/-- Witness for C8 at a concrete manifest store (both a `"manifest"` request and a
non-`"manifest"` request). -/
theorem manifest_fetch_and_wrapping_witness :
    ImageManifestContentGetter.get gManifest envA storeManifest false =
      (.ok (.formatted (.raw 7)), storeManifest,
        [StoreOp.get "acct" "manifest_data" "dgst"]) ∧
    ImageManifestContentGetter.get gOs envA storeManifest false =
      (.error (.badRequest
        "image content of type (os) was not an available type at analysis time for this image"
        { account_id := "acct", content_type := some "os", image_digest := "dgst" }),
        storeManifest, [StoreOp.get "acct" "manifest_data" "dgst"]) := by
  constructor
  · exact (manifest_fetch_and_wrapping gManifest envA storeManifest false rptActual
      (.raw 7) rfl rfl rfl).2.1 rfl
  · exact (manifest_fetch_and_wrapping gOs envA storeManifest false rptActual
      (.raw 7) rfl rfl rfl).2.2 (by decide)

/-- C3 (code bug): the Multi-Type variant constructed with an empty requested-types
list raises `AttributeError` on a non-empty document instead of returning an empty
mapping: `__init__` only assigns `self.content_types` when the argument list is
truthy, while the hook's own `not self.content_types` guard (which was written to
return `{}` for an empty selection) then reads the unassigned attribute.  The empty-
document cases do return `{}` as claimed (the `or` short-circuits before the
attribute is read). -/
theorem multi_type_empty_request_attribute_error :
    (MultipleContentTypesGetter.get
      (MultipleContentTypesGetter.make "acct" [] "dgst") envA storeOs false).1 =
      .error (.attributeError "content_types") ∧
    (MultipleContentTypesGetter.get
      (MultipleContentTypesGetter.make "acct" [] "dgst") envA
      ⟨[(("acct", "image_content_data", "dgst"), .contentDoc [])]⟩ false).1 =
      .ok (.doc []) ∧
    (MultipleContentTypesGetter.get
      (MultipleContentTypesGetter.make "acct" ["os"] "dgst") envA
      ⟨[(("acct", "image_content_data", "dgst"), .contentDoc [])]⟩ false).1 =
      .ok (.doc []) := ⟨rfl, rfl, rfl⟩

/-- The boolean `_is_content_type_match` test, spelled out: supported and (all
requested or lower-cased member), provided the registry does not contain the empty
string. -/
theorem is_content_type_match_iff (env : Env) (cts : List String) (k : String)
    (hempty : "" ∉ env.image_content_types) :
    MultipleContentTypesGetter.is_content_type_match env cts k = true ↔
      (k ∈ env.image_content_types ∧
        ("all" ∈ cts ∨ lowerString k ∈ cts)) := by
  unfold MultipleContentTypesGetter.is_content_type_match
  by_cases hk : k = ""
  · subst hk
    simp [hempty]
  · by_cases hsup : k ∈ env.image_content_types
    · by_cases hall : "all" ∈ cts <;> simp [hk, hsup, hall]
    · simp [hk, hsup]

/-- Key membership in the aggregated result: a key survives the filter-and-format
exactly when it is a key of the document and passes the predicate. -/
theorem mem_keys_filter_format (d : Doc) (p : String → Bool)
    (f : String → Payload → Payload) (k : String) :
    (k ∈ ((d.filter (fun e => p e.1)).map
        (fun e => (e.1, f e.1 e.2))).map Prod.fst) ↔
      (k ∈ d.map Prod.fst ∧ p k = true) := by
  simp only [List.map_map, List.mem_map, List.mem_filter, Function.comp]
  constructor
  · rintro ⟨e, ⟨hed, hpe⟩, hek⟩
    refine ⟨⟨e, hed, hek⟩, ?_⟩
    rw [← hek]
    exact hpe
  · rintro ⟨⟨e, hed, hek⟩, hpk⟩
    refine ⟨e, ⟨hed, ?_⟩, hek⟩
    rw [← hek] at hpk
    exact hpk

/-- C7: with a non-empty requested-types list and a non-empty fetched document (and
an empty-string-free registry), the Multi-Type variant returns exactly the document
entries whose key passes `_is_content_type_match`, each formatted; and a key is
included if and only if it is a registry-supported content type and either `"all"`
is among the (lower-cased) requested types or its lower-cased form is — so a
mixed-case request such as `["OS"]` matches document key `"os"`. -/
theorem multi_type_inclusion
    (account digest : String) (req : List String) (env : Env) (store : ObjStore)
    (allow : Bool) (r : ImageReport) (d : Doc)
    (hreq : req ≠ [])
    (hd : d ≠ [])
    (hrep : env.db_catalog_image_get digest account = some r)
    (hst : r.analysis_status = analyze_complete_state)
    (hblob : store.lookup (account, "image_content_data", digest) =
      some (.contentDoc d))
    (hempty : "" ∉ env.image_content_types) :
    (MultipleContentTypesGetter.make account req digest).get env store allow =
      (.ok (.doc ((d.filter (fun e =>
          MultipleContentTypesGetter.is_content_type_match env
            (req.map (fun item => lowerString item)) e.1)).map
        (fun e => (e.1, env.make_image_content_response (some e.1) e.2)))),
        store, [StoreOp.get account "image_content_data" digest]) ∧
    (∀ k : String,
      k ∈ ((d.filter (fun e =>
          MultipleContentTypesGetter.is_content_type_match env
            (req.map (fun item => lowerString item)) e.1)).map
        (fun e => (e.1, env.make_image_content_response (some e.1) e.2))).map
          Prod.fst ↔
      (k ∈ d.map Prod.fst ∧ k ∈ env.image_content_types ∧
        ("all" ∈ req.map (fun item => lowerString item) ∨
          lowerString k ∈ req.map (fun item => lowerString item)))) := by
  constructor
  · have hver := verify_ok_of_complete
      (MultipleContentTypesGetter.make account req digest).toGetter r allow hst
    have hfetch : ImageContentGetter.get_image_content_data
        (MultipleContentTypesGetter.make account req digest).toGetter store
        digest =
        (.ok d, [StoreOp.get account "image_content_data" digest]) := by
      unfold ImageContentGetter.get_image_content_data
      simp only [MultipleContentTypesGetter.make, hblob]
    have hred := getWith_fetch_ok
      (MultipleContentTypesGetter.make account req digest).toGetter env store
      false false _
      ((MultipleContentTypesGetter.make account req digest).hydrate_additional_data)
      allow r d _ hrep hver hfetch
    unfold MultipleContentTypesGetter.get
    rw [hred]
    have hcts : (MultipleContentTypesGetter.make account req digest).content_types =
        some (req.map (fun item => lowerString item)) := by
      simp [MultipleContentTypesGetter.make, hreq]
    have hctsne : (req.map (fun item => lowerString item)).isEmpty = false := by
      cases req with
      | nil => exact absurd rfl hreq
      | cons a t => rfl
    simp [getAfterFetch, MultipleContentTypesGetter.hydrate_additional_data,
      hcts, hctsne, List.isEmpty_iff, hd]
  · intro k
    rw [mem_keys_filter_format d
      (fun key => MultipleContentTypesGetter.is_content_type_match env
        (req.map (fun item => lowerString item)) key)
      (fun key payload => env.make_image_content_response (some key) payload) k]
    rw [is_content_type_match_iff env _ k hempty]

/-- Witness for C7: the mixed-case request `["OS"]` against a document with keys
`"os"`, `"java"` and `"unsupported"` selects exactly the `"os"` entry. -/
theorem multi_type_inclusion_witness :
    (MultipleContentTypesGetter.make "acct" ["OS"] "dgst").get envA
      ⟨[(("acct", "image_content_data", "dgst"),
          .contentDoc [("os", .raw 0), ("java", .raw 1), ("unsupported", .raw 2)])]⟩
      false =
      (.ok (.doc [("os", .raw 0)]),
        ⟨[(("acct", "image_content_data", "dgst"),
            .contentDoc [("os", .raw 0), ("java", .raw 1),
              ("unsupported", .raw 2)])]⟩,
        [StoreOp.get "acct" "image_content_data" "dgst"]) := by
  exact (multi_type_inclusion "acct" "dgst" ["OS"] envA
    ⟨[(("acct", "image_content_data", "dgst"),
        .contentDoc [("os", .raw 0), ("java", .raw 1), ("unsupported", .raw 2)])]⟩
    false rptActual [("os", .raw 0), ("java", .raw 1), ("unsupported", .raw 2)]
    (by decide) (by decide) rfl rfl rfl (by decide)).1

theorem dockerfile_get_absent_key
    (g : ImageContentGetter) (env : Env) (store : ObjStore) (allow : Bool)
    (r : ImageReport) (d : Doc)
    (hct : g.content_type = some "dockerfile")
    (hrep : env.db_catalog_image_get g.image_digest g.account_id = some r)
    (hst : r.analysis_status = analyze_complete_state)
    (hblob : store.lookup (g.account_id, "image_content_data", g.image_digest) =
      some (.contentDoc d))
    (habsent : findKey d "dockerfile" = none) :
    ImageDockerfileContentGetter.get g env store allow =
      (.error (.badRequest
        "image content of type (dockerfile) was not an available type at analysis time for this image"
        { account_id := g.account_id, content_type := some "dockerfile",
          image_digest := g.image_digest }), store,
        [StoreOp.get g.account_id "image_content_data" g.image_digest]) := by
  have hver := verify_ok_of_complete g r allow hst
  unfold ImageDockerfileContentGetter.get
  rw [getWith_fetch_ok g env store true false _ _ allow r d _ hrep hver
    (base_fetch_ok g store d hblob)]
  simp [getAfterFetch, containsKey, hct, habsent,
    ImageContentGetter.get_error_detail, contentTypeStr]

theorem dockerfile_get_truthy_case
    (g : ImageContentGetter) (env : Env) (store : ObjStore) (allow : Bool)
    (r : ImageReport) (d : Doc) (v : Payload)
    (hct : g.content_type = some "dockerfile")
    (hrep : env.db_catalog_image_get g.image_digest g.account_id = some r)
    (hst : r.analysis_status = analyze_complete_state)
    (hblob : store.lookup (g.account_id, "image_content_data", g.image_digest) =
      some (.contentDoc d))
    (hdf : findKey d "dockerfile" = some v)
    (hv : v.truthy = true) :
    ImageDockerfileContentGetter.get g env store allow =
      (.ok (.formatted (env.make_image_content_response (some "dockerfile") v)),
        store, [StoreOp.get g.account_id "image_content_data" g.image_digest]) := by
  have hver := verify_ok_of_complete g r allow hst
  unfold ImageDockerfileContentGetter.get
  rw [getWith_fetch_ok g env store true false _ _ allow r d _ hrep hver
    (base_fetch_ok g store d hblob)]
  simp [getAfterFetch, containsKey, hct, hdf,
    ImageDockerfileContentGetter.hydrate_additional_data, truthyOpt, hv,
    indexKey, Except.map]

theorem dockerfile_get_migration_case
    (g : ImageContentGetter) (env : Env) (store : ObjStore) (allow : Bool)
    (r : ImageReport) (d : Doc) (v : Payload)
    (hct : g.content_type = some "dockerfile")
    (hrep : env.db_catalog_image_get g.image_digest g.account_id = some r)
    (hst : r.analysis_status = analyze_complete_state)
    (hblob : store.lookup (g.account_id, "image_content_data", g.image_digest) =
      some (.contentDoc d))
    (hdf : findKey d "dockerfile" = some v)
    (hv : v.truthy = false)
    (hmode : r.dockerfile_mode = some "Actual") :
    ImageDockerfileContentGetter.get g env store allow =
      ((indexKey (dockerfileMigrationLoop g env store d r.imageDigest
          r.image_detail).1 (some "dockerfile")).map
        (fun p => ContentData.formatted
          (env.make_image_content_response (some "dockerfile") p)),
        (dockerfileMigrationLoop g env store d r.imageDigest
          r.image_detail).2.1,
        StoreOp.get g.account_id "image_content_data" g.image_digest ::
          (dockerfileMigrationLoop g env store d r.imageDigest
            r.image_detail).2.2.1) := by
  have hver := verify_ok_of_complete g r allow hst
  unfold ImageDockerfileContentGetter.get
  rw [getWith_fetch_ok g env store true false _ _ allow r d _ hrep hver
    (base_fetch_ok g store d hblob)]
  simp [getAfterFetch, containsKey, hct, hdf,
    ImageDockerfileContentGetter.hydrate_additional_data, truthyOpt, hv, hmode]

theorem migration_loop_single_ok
    (g : ImageContentGetter) (env : Env) (store : ObjStore) (d : Doc)
    (rdig B T : String)
    (hB : B ≠ "")
    (hdec : env.base64_decodebytes B = .ok T)
    (hput : env.object_store_put_fails g.account_id "image_content_data" rdig
      = false) :
    dockerfileMigrationLoop g env store d rdig [{ dockerfile := some B }] =
      (insertKey d "dockerfile" (.str T),
        store.write (g.account_id, "image_content_data", rdig)
          (.contentDoc (insertKey d "dockerfile" (.str T))),
        [StoreOp.put g.account_id "image_content_data" rdig], none) := by
  unfold dockerfileMigrationLoop
  simp [ImageDetail.dockerfileTruthy, hB, hdec, hput, Option.getD]

theorem migration_loop_decode_error
    (g : ImageContentGetter) (env : Env) (store : ObjStore) (d : Doc)
    (rdig B e : String) (rest : List ImageDetail)
    (hB : B ≠ "")
    (hdec : env.base64_decodebytes B = .error e) :
    dockerfileMigrationLoop g env store d rdig
        ({ dockerfile := some B } :: rest) =
      (d, store, [], some e) := by
  unfold dockerfileMigrationLoop
  simp [ImageDetail.dockerfileTruthy, hB, hdec, Option.getD]

theorem migration_loop_put_fails
    (g : ImageContentGetter) (env : Env) (store : ObjStore) (d : Doc)
    (rdig B T : String) (rest : List ImageDetail)
    (hB : B ≠ "")
    (hdec : env.base64_decodebytes B = .ok T)
    (hput : env.object_store_put_fails g.account_id "image_content_data" rdig
      = true) :
    dockerfileMigrationLoop g env store d rdig
        ({ dockerfile := some B } :: rest) =
      (insertKey d "dockerfile" (.str T), store, [],
        some "object store put failed") := by
  unfold dockerfileMigrationLoop
  simp [ImageDetail.dockerfileTruthy, hB, hdec, hput, Option.getD]

/-- C6 (counterexample): the Dockerfile variant also requires single-type presence
validation (it inherits the default `__verify_content_type__`), but there a
present-but-empty payload does not format to an empty result: at this concrete
input — an empty `"dockerfile"` payload, `dockerfileMode = "Actual"`, one valid
legacy base64 body decoding to `"ABC"` — `get()` succeeds with the decoded migrated
text, while the formatter maps the empty payload to the empty result, which the
returned payload is not. -/
theorem single_type_presence_empty_payload_counterexample :
    (ImageDockerfileContentGetter.get gDockerfile envA storeEmptyDockerfile
        false).1 = .ok (.formatted (.str "ABC")) ∧
    envA.make_image_content_response (some "dockerfile") (.str "") = .str "" ∧
    Payload.str "ABC" ≠ Payload.str "" := ⟨rfl, rfl, by decide⟩

/-- C6 (amended): for every variant that requires single-type presence validation —
any normalize flag and post-processing hook, hence the base, Manifest and Dockerfile
variants alike — a requested type absent from the fetched document fails with
`InvalidRequest` (`BadRequest`).  A present-but-empty payload always passes the
check and succeeds; it formats to an empty result for the variants that normalize
on load with the passthrough hook (base and Manifest, given the formatter contract
that an empty payload formats to an empty result), but not for the Dockerfile
variant, where an empty `"dockerfile"` payload with mode `"Actual"` and a valid
legacy base64 body yields the formatted decoded text instead. -/
theorem single_type_presence_check
    (g : ImageContentGetter) (env : Env) (store : ObjStore)
    (fetchData : ObjStore → String → Except GetterError Doc × List StoreOp)
    (allow : Bool) (r : ImageReport) (d : Doc) (ops : List StoreOp) (ct : String)
    (hct : g.content_type = some ct)
    (hrep : env.db_catalog_image_get g.image_digest g.account_id = some r)
    (hst : r.analysis_status = analyze_complete_state)
    (hfetch : fetchData store g.image_digest = (.ok d, ops)) :
    (∀ (norm : Bool)
      (hydrate : Env → ObjStore → ContentData → ImageReport →
        Except GetterError ContentData × ObjStore × List StoreOp),
      findKey d ct = none →
      getWith g env store true norm fetchData hydrate allow =
        (.error (.badRequest
          ("image content of type (" ++ ct
            ++ ") was not an available type at analysis time for this image")
          { account_id := g.account_id, content_type := some ct,
            image_digest := g.image_digest }), store, ops)) ∧
    (findKey d ct = some .empty →
      env.make_image_content_response (some ct) .empty = .empty →
      getWith g env store true true fetchData
          ImageContentGetter.hydrate_additional_data allow =
        (.ok (.formatted .empty), store, ops)) ∧
    (ct = "dockerfile" →
      store.lookup (g.account_id, "image_content_data", g.image_digest) =
        some (.contentDoc d) →
      ∀ (v : Payload) (B T : String),
        findKey d "dockerfile" = some v → v.truthy = false →
        r.dockerfile_mode = some "Actual" →
        r.image_detail = [{ dockerfile := some B }] →
        B ≠ "" →
        env.base64_decodebytes B = .ok T →
        env.object_store_put_fails g.account_id "image_content_data"
          r.imageDigest = false →
        (ImageDockerfileContentGetter.get g env store allow).1 =
          .ok (.formatted (env.make_image_content_response (some "dockerfile")
            (.str T)))) := by
  have hver := verify_ok_of_complete g r allow hst
  refine ⟨?_, ?_, ?_⟩
  · intro norm hydrate habsent
    rw [getWith_fetch_ok g env store true norm fetchData hydrate allow r d ops
      hrep hver hfetch]
    simp [getAfterFetch, containsKey, hct, habsent,
      ImageContentGetter.get_error_detail, contentTypeStr]
  · intro hpresent hfmt
    rw [getWith_fetch_ok g env store true true fetchData
      ImageContentGetter.hydrate_additional_data allow r d ops hrep hver hfetch]
    simp [getAfterFetch, containsKey, hct, hpresent, indexKey, Except.map,
      ImageContentGetter.hydrate_additional_data, hfmt]
  · intro hctd hblob v B T hdf hv hmode hdet hB hdec hput
    have h1 := dockerfile_get_migration_case g env store allow r d v
      (hct.trans (by rw [hctd])) hrep hst hblob hdf hv hmode
    rw [hdet,
      migration_loop_single_ok g env store d r.imageDigest B T hB hdec hput] at h1
    rw [h1]
    simp [indexKey, findKey_insertKey_self, Except.map]

/-- Witness for the amended C6: an absent type fails with `BadRequest` on both the
base variant and the Dockerfile variant (whose hook never runs); a present-but-empty
payload on the base variant formats to an empty result, while on the Dockerfile
variant it yields the decoded migrated text. -/
theorem single_type_presence_check_witness :
    (({ account_id := "acct", content_type := some "java",
        image_digest := "dgst" } : ImageContentGetter).get envA storeOs false) =
      (.error (.badRequest
        "image content of type (java) was not an available type at analysis time for this image"
        { account_id := "acct", content_type := some "java",
          image_digest := "dgst" }), storeOs,
        [StoreOp.get "acct" "image_content_data" "dgst"]) ∧
    ImageDockerfileContentGetter.get gDockerfile envA storeOs false =
      (.error (.badRequest
        "image content of type (dockerfile) was not an available type at analysis time for this image"
        { account_id := "acct", content_type := some "dockerfile",
          image_digest := "dgst" }), storeOs,
        [StoreOp.get "acct" "image_content_data" "dgst"]) ∧
    gOs.get envA storeOsEmptyPayload false =
      (.ok (.formatted .empty), storeOsEmptyPayload,
        [StoreOp.get "acct" "image_content_data" "dgst"]) ∧
    (ImageDockerfileContentGetter.get gDockerfile envA storeEmptyDockerfile
        false).1 = .ok (.formatted (.str "ABC")) := by
  refine ⟨?_, ?_, ?_, ?_⟩
  · exact (single_type_presence_check
      { account_id := "acct", content_type := some "java", image_digest := "dgst" }
      envA storeOs
      (ImageContentGetter.get_image_content_data
        { account_id := "acct", content_type := some "java", image_digest := "dgst" })
      false rptActual [("os", .raw 0)]
      [StoreOp.get "acct" "image_content_data" "dgst"] "java"
      rfl rfl rfl rfl).1 true ImageContentGetter.hydrate_additional_data rfl
  · exact (single_type_presence_check gDockerfile envA storeOs
      (gDockerfile.get_image_content_data) false rptActual [("os", .raw 0)]
      [StoreOp.get "acct" "image_content_data" "dgst"] "dockerfile"
      rfl rfl rfl rfl).1 false
      (ImageDockerfileContentGetter.hydrate_additional_data gDockerfile) rfl
  · exact (single_type_presence_check gOs envA storeOsEmptyPayload
      (gOs.get_image_content_data) false rptActual [("os", .empty)]
      [StoreOp.get "acct" "image_content_data" "dgst"] "os"
      rfl rfl rfl rfl).2.1 rfl rfl
  · exact (single_type_presence_check gDockerfile envA storeEmptyDockerfile
      (gDockerfile.get_image_content_data) false rptActual
      [("os", .raw 0), ("dockerfile", .str "")]
      [StoreOp.get "acct" "image_content_data" "dgst"] "dockerfile"
      rfl rfl rfl rfl).2.2 rfl rfl (.str "") "QUJD" "ABC"
      rfl rfl rfl rfl (by decide) rfl rfl

/-- C1 (counterexample): at a concrete input satisfying the claim's premises —
`dockerfileMode = "Actual"` (`rptActual`), a stored content document with no
`"dockerfile"` key at all (`storeOs`), and one `imageDetails` entry with the valid
base64 body `"QUJD"` (decoding to `"ABC"`) — `get()` does not return the decoded
content and persists nothing: the inherited single-type presence check rejects the
request with `BadRequest` before the migration hook can run, and the store is left
unchanged. -/
theorem dockerfile_migration_missing_key_counterexample :
    ImageDockerfileContentGetter.get gDockerfile envA storeOs false =
      (.error (.badRequest
        "image content of type (dockerfile) was not an available type at analysis time for this image"
        { account_id := "acct", content_type := some "dockerfile",
          image_digest := "dgst" }), storeOs,
        [StoreOp.get "acct" "image_content_data" "dgst"]) := rfl

/-- C1 (amended): for every image record with `dockerfileMode = "Actual"` whose
stored content document has a present-but-empty (falsy) `"dockerfile"` entry —
rather than no `"dockerfile"` key, which the base flow's presence check rejects —
and whose `imageDetails` contain one entry with a valid base64 body `B` decoding to
`T`, `get()` (a) returns the formatted content of the decoded text, (b) persists the
migration by writing the document back under the same key, so that a subsequent
independent fetch of that key already holds `"dockerfile"` mapped to the decoded
text, and (c) repeating the call yields the identical output both times. -/
theorem dockerfile_migration_on_read
    (g : ImageContentGetter) (env : Env) (store : ObjStore) (allow : Bool)
    (r : ImageReport) (d : Doc) (v : Payload) (B T : String)
    (hct : g.content_type = some "dockerfile")
    (hrep : env.db_catalog_image_get g.image_digest g.account_id = some r)
    (hst : r.analysis_status = analyze_complete_state)
    (hmode : r.dockerfile_mode = some "Actual")
    (hdet : r.image_detail = [{ dockerfile := some B }])
    (hdig : r.imageDigest = g.image_digest)
    (hblob : store.lookup (g.account_id, "image_content_data", g.image_digest) =
      some (.contentDoc d))
    (hdf : findKey d "dockerfile" = some v)
    (hv : v.truthy = false)
    (hB : B ≠ "")
    (hdec : env.base64_decodebytes B = .ok T)
    (hput : env.object_store_put_fails g.account_id "image_content_data"
      g.image_digest = false) :
    (ImageDockerfileContentGetter.get g env store allow).1 =
      .ok (.formatted (env.make_image_content_response (some "dockerfile")
        (.str T))) ∧
    (ImageDockerfileContentGetter.get g env store allow).2.1.lookup
        (g.account_id, "image_content_data", g.image_digest) =
      some (.contentDoc (insertKey d "dockerfile" (.str T))) ∧
    findKey (insertKey d "dockerfile" (.str T)) "dockerfile" = some (.str T) ∧
    (ImageDockerfileContentGetter.get g env
        (ImageDockerfileContentGetter.get g env store allow).2.1 allow).1 =
      (ImageDockerfileContentGetter.get g env store allow).1 := by
  have hidx : indexKey (insertKey d "dockerfile" (.str T)) (some "dockerfile") =
      .ok (.str T) := by
    simp [indexKey, findKey_insertKey_self]
  have h1 := dockerfile_get_migration_case g env store allow r d v hct hrep hst
    hblob hdf hv hmode
  rw [hdig, hdet,
    migration_loop_single_ok g env store d g.image_digest B T hB hdec hput] at h1
  have ha : (ImageDockerfileContentGetter.get g env store allow).1 =
      .ok (.formatted (env.make_image_content_response (some "dockerfile")
        (.str T))) := by
    rw [h1]
    simp [hidx, Except.map]
  have hb : (ImageDockerfileContentGetter.get g env store allow).2.1 =
      store.write (g.account_id, "image_content_data", g.image_digest)
        (.contentDoc (insertKey d "dockerfile" (.str T))) := by
    rw [h1]
  refine ⟨ha, ?_, findKey_insertKey_self d "dockerfile" (.str T), ?_⟩
  · rw [hb, lookup_write_self]
  · rw [hb, ha]
    have hblob2 : (store.write (g.account_id, "image_content_data", g.image_digest)
        (.contentDoc (insertKey d "dockerfile" (.str T)))).lookup
        (g.account_id, "image_content_data", g.image_digest) =
        some (.contentDoc (insertKey d "dockerfile" (.str T))) :=
      lookup_write_self store _ _
    have hdf2 : findKey (insertKey d "dockerfile" (.str T)) "dockerfile" =
        some (.str T) := findKey_insertKey_self d "dockerfile" (.str T)
    by_cases hT : T = ""
    · have hv2 : (Payload.str T).truthy = false := by
        simp [Payload.truthy, hT]
      have h2 := dockerfile_get_migration_case g env _ allow r
        (insertKey d "dockerfile" (.str T)) (.str T) hct hrep hst hblob2 hdf2
        hv2 hmode
      rw [hdig, hdet, migration_loop_single_ok g env _
        (insertKey d "dockerfile" (.str T)) g.image_digest B T hB hdec hput] at h2
      rw [h2]
      have hidx2 : indexKey (insertKey (insertKey d "dockerfile" (.str T))
          "dockerfile" (.str T)) (some "dockerfile") = .ok (.str T) := by
        simp [indexKey, findKey_insertKey_self]
      simp [hidx2, Except.map]
    · have hv2 : (Payload.str T).truthy = true := by
        simp [Payload.truthy, hT]
      have h2 := dockerfile_get_truthy_case g env _ allow r
        (insertKey d "dockerfile" (.str T)) (.str T) hct hrep hst hblob2 hdf2 hv2
      rw [h2]

/-- Witness for the amended C1: a present-but-empty `"dockerfile"` entry is migrated
from the legacy base64 body `"QUJD"` and persisted as `"ABC"`. -/
theorem dockerfile_migration_on_read_witness :
    (ImageDockerfileContentGetter.get gDockerfile envA storeEmptyDockerfile
        false).1 = .ok (.formatted (.str "ABC")) ∧
    (ImageDockerfileContentGetter.get gDockerfile envA storeEmptyDockerfile
        false).2.1.lookup ("acct", "image_content_data", "dgst") =
      some (.contentDoc [("os", .raw 0), ("dockerfile", .str "ABC")]) ∧
    findKey (insertKey [("os", Payload.raw 0), ("dockerfile", Payload.str "")]
      "dockerfile" (.str "ABC")) "dockerfile" = some (.str "ABC") ∧
    (ImageDockerfileContentGetter.get gDockerfile envA
        (ImageDockerfileContentGetter.get gDockerfile envA storeEmptyDockerfile
          false).2.1 false).1 =
      (ImageDockerfileContentGetter.get gDockerfile envA storeEmptyDockerfile
        false).1 := by
  exact dockerfile_migration_on_read gDockerfile envA storeEmptyDockerfile false
    rptActual [("os", .raw 0), ("dockerfile", .str "")] (.str "") "QUJD" "ABC"
    rfl rfl rfl rfl rfl rfl rfl rfl rfl (by decide) rfl rfl

/-- C9: failures raised inside the Dockerfile variant's migration step are caught
and never propagated: whether the base64 decode fails or the object-store write-back
fails, `get()` still succeeds, leaves the store unchanged, and returns the formatted
content for the requested type from the (possibly unmigrated) in-memory document —
the original falsy value on a decode failure, the decoded-in-memory text on a write
failure. -/
theorem dockerfile_migration_failures_nonfatal
    (g : ImageContentGetter) (env : Env) (store : ObjStore) (allow : Bool)
    (r : ImageReport) (d : Doc) (v : Payload) (B : String)
    (rest : List ImageDetail)
    (hct : g.content_type = some "dockerfile")
    (hrep : env.db_catalog_image_get g.image_digest g.account_id = some r)
    (hst : r.analysis_status = analyze_complete_state)
    (hmode : r.dockerfile_mode = some "Actual")
    (hdet : r.image_detail = { dockerfile := some B } :: rest)
    (hblob : store.lookup (g.account_id, "image_content_data", g.image_digest) =
      some (.contentDoc d))
    (hdf : findKey d "dockerfile" = some v)
    (hv : v.truthy = false)
    (hB : B ≠ "") :
    (∀ e : String, env.base64_decodebytes B = .error e →
      ImageDockerfileContentGetter.get g env store allow =
        (.ok (.formatted (env.make_image_content_response (some "dockerfile") v)),
          store,
          [StoreOp.get g.account_id "image_content_data" g.image_digest])) ∧
    (∀ T : String, env.base64_decodebytes B = .ok T →
      env.object_store_put_fails g.account_id "image_content_data" r.imageDigest
        = true →
      ImageDockerfileContentGetter.get g env store allow =
        (.ok (.formatted (env.make_image_content_response (some "dockerfile")
          (.str T))), store,
          [StoreOp.get g.account_id "image_content_data" g.image_digest])) := by
  have h1 := dockerfile_get_migration_case g env store allow r d v hct hrep hst
    hblob hdf hv hmode
  rw [hdet] at h1
  constructor
  · intro e hdec
    rw [h1, migration_loop_decode_error g env store d r.imageDigest B e rest hB
      hdec]
    simp [indexKey, hdf, Except.map]
  · intro T hdec hput
    rw [h1, migration_loop_put_fails g env store d r.imageDigest B T rest hB
      hdec hput]
    simp [indexKey, findKey_insertKey_self, Except.map]

/-- Witness for C9: a decode failure (`envBadBase64`) and a write failure
(`envPutFails`) both leave `get()` successful, with the store untouched. -/
theorem dockerfile_migration_failures_nonfatal_witness :
    ImageDockerfileContentGetter.get gDockerfile envBadBase64
      storeEmptyDockerfile false =
      (.ok (.formatted (.str "")), storeEmptyDockerfile,
        [StoreOp.get "acct" "image_content_data" "dgst"]) ∧
    ImageDockerfileContentGetter.get gDockerfile envPutFails
      storeEmptyDockerfile false =
      (.ok (.formatted (.str "ABC")), storeEmptyDockerfile,
        [StoreOp.get "acct" "image_content_data" "dgst"]) := by
  constructor
  · exact (dockerfile_migration_failures_nonfatal gDockerfile envBadBase64
      storeEmptyDockerfile false rptActual
      [("os", .raw 0), ("dockerfile", .str "")] (.str "") "QUJD" []
      rfl rfl rfl rfl rfl rfl rfl rfl (by decide)).1 "Incorrect padding" rfl
  · exact (dockerfile_migration_failures_nonfatal gDockerfile envPutFails
      storeEmptyDockerfile false rptActual
      [("os", .raw 0), ("dockerfile", .str "")] (.str "") "QUJD" []
      rfl rfl rfl rfl rfl rfl rfl rfl (by decide)).2 "ABC" rfl rfl

/-- C10: the Dockerfile variant decides whether to migrate by truthiness of the
`"dockerfile"` value, not key presence: (a) with no `"dockerfile"` key at all the
base flow's presence check rejects the request with `BadRequest` before the
post-processing hook runs (no write, store unchanged); (b) with a present truthy
value the hook returns without migrating (no write, store unchanged); (c) with a
present-but-empty (falsy) value, mode `"Actual"` and a valid legacy body, migration
runs and persists a write back to the same key.  Hence migration is reachable only
through a present-but-empty `"dockerfile"` entry. -/
theorem dockerfile_migration_reachability
    (g : ImageContentGetter) (env : Env) (store : ObjStore) (allow : Bool)
    (r : ImageReport) (d : Doc) (B T : String)
    (hct : g.content_type = some "dockerfile")
    (hrep : env.db_catalog_image_get g.image_digest g.account_id = some r)
    (hst : r.analysis_status = analyze_complete_state)
    (hmode : r.dockerfile_mode = some "Actual")
    (hdet : r.image_detail = [{ dockerfile := some B }])
    (hdig : r.imageDigest = g.image_digest)
    (hblob : store.lookup (g.account_id, "image_content_data", g.image_digest) =
      some (.contentDoc d))
    (hB : B ≠ "")
    (hdec : env.base64_decodebytes B = .ok T)
    (hput : env.object_store_put_fails g.account_id "image_content_data"
      g.image_digest = false) :
    (findKey d "dockerfile" = none →
      ImageDockerfileContentGetter.get g env store allow =
        (.error (.badRequest
          "image content of type (dockerfile) was not an available type at analysis time for this image"
          { account_id := g.account_id, content_type := some "dockerfile",
            image_digest := g.image_digest }), store,
          [StoreOp.get g.account_id "image_content_data" g.image_digest])) ∧
    (∀ v : Payload, findKey d "dockerfile" = some v → v.truthy = true →
      ImageDockerfileContentGetter.get g env store allow =
        (.ok (.formatted (env.make_image_content_response (some "dockerfile") v)),
          store,
          [StoreOp.get g.account_id "image_content_data" g.image_digest])) ∧
    (∀ v : Payload, findKey d "dockerfile" = some v → v.truthy = false →
      (ImageDockerfileContentGetter.get g env store allow).2.1 =
        store.write (g.account_id, "image_content_data", g.image_digest)
          (.contentDoc (insertKey d "dockerfile" (.str T))) ∧
      (ImageDockerfileContentGetter.get g env store allow).2.2 =
        [StoreOp.get g.account_id "image_content_data" g.image_digest,
          StoreOp.put g.account_id "image_content_data" g.image_digest]) := by
  refine ⟨?_, ?_, ?_⟩
  · intro habsent
    exact dockerfile_get_absent_key g env store allow r d hct hrep hst hblob
      habsent
  · intro v hdf hv
    exact dockerfile_get_truthy_case g env store allow r d v hct hrep hst hblob
      hdf hv
  · intro v hdf hv
    have h1 := dockerfile_get_migration_case g env store allow r d v hct hrep hst
      hblob hdf hv hmode
    rw [hdig, hdet,
      migration_loop_single_ok g env store d g.image_digest B T hB hdec hput]
      at h1
    rw [h1]
    exact ⟨rfl, rfl⟩

/-- Witness for C10 at concrete stores: absent key (rejected), truthy value (no
migration), empty value (migration persisted). -/
theorem dockerfile_migration_reachability_witness :
    ImageDockerfileContentGetter.get gDockerfile envA storeOs false =
      (.error (.badRequest
        "image content of type (dockerfile) was not an available type at analysis time for this image"
        { account_id := "acct", content_type := some "dockerfile",
          image_digest := "dgst" }), storeOs,
        [StoreOp.get "acct" "image_content_data" "dgst"]) ∧
    ImageDockerfileContentGetter.get gDockerfile envA storeTruthyDockerfile
      false =
      (.ok (.formatted (.str "FROM scratch")), storeTruthyDockerfile,
        [StoreOp.get "acct" "image_content_data" "dgst"]) ∧
    (ImageDockerfileContentGetter.get gDockerfile envA storeEmptyDockerfile
        false).2.2 =
      [StoreOp.get "acct" "image_content_data" "dgst",
        StoreOp.put "acct" "image_content_data" "dgst"] := by
  refine ⟨?_, ?_, ?_⟩
  · exact (dockerfile_migration_reachability gDockerfile envA storeOs false
      rptActual [("os", .raw 0)] "QUJD" "ABC"
      rfl rfl rfl rfl rfl rfl rfl (by decide) rfl rfl).1 rfl
  · exact (dockerfile_migration_reachability gDockerfile envA
      storeTruthyDockerfile false rptActual [("dockerfile", .str "FROM scratch")]
      "QUJD" "ABC"
      rfl rfl rfl rfl rfl rfl rfl (by decide) rfl rfl).2.1
      (.str "FROM scratch") rfl rfl
  · exact ((dockerfile_migration_reachability gDockerfile envA
      storeEmptyDockerfile false rptActual
      [("os", .raw 0), ("dockerfile", .str "")] "QUJD" "ABC"
      rfl rfl rfl rfl rfl rfl rfl (by decide) rfl rfl).2.2
      (.str "") rfl rfl).2

end GetImageContent
